import Mathlib

/- Shallow embedding of dailies.py (kk-dailies): filtergraph and command
construction for slate and movie generation, with the temp-file allocation
and slate-field population logic.  External collaborators (ffmpeg itself,
fileseq sequence resolution, yaml config loading, the real filesystem) are
modelled as parameters; everything this file proves is about the strings
and argument vectors the Python code constructs. -/

/- Python str.split(sep) on a single separator character: splits at every
occurrence, keeping empty pieces, and maps the empty string to [""]. -/
def splitChar (sep : Char) : List Char → List (List Char)
  | [] => [[]]
  | c :: rest =>
    match splitChar sep rest with
    | [] => [[]]
    | h :: t => if c = sep then [] :: h :: t else (c :: h) :: t

def pySplit (s : String) (sep : Char) : List String :=
  (splitChar sep s.data).map (fun l => ⟨l⟩)

/- Python sep.join(list). -/
def joinSep (sep : String) : List String → String
  | [] => ""
  | [x] => x
  | x :: y :: rest => x ++ sep ++ joinSep sep (y :: rest)

/- Contiguous-run (substring) test on lists, scanning left to right. -/
def containsRun {α : Type} [DecidableEq α] (pat : List α) : List α → Bool
  | [] => pat.isEmpty
  | c :: rest => (decide ((c :: rest).take pat.length = pat)) || containsRun pat rest

/- Python (pat in s) for strings. -/
def strHas (s pat : String) : Bool := containsRun pat.data s.data

/- Count of non-overlapping occurrences, scanning left to right; the fuel
argument is instantiated with the list length, which bounds the number of
steps since every step consumes at least one element. -/
def countRunFuel {α : Type} [DecidableEq α] (pat : List α) : Nat → List α → Nat
  | _, [] => 0
  | 0, _ => 0
  | fuel + 1, c :: rest =>
    if 0 < pat.length ∧ (c :: rest).take pat.length = pat then
      1 + countRunFuel pat fuel ((c :: rest).drop pat.length)
    else
      countRunFuel pat fuel rest

def countOcc (s pat : String) : Nat := countRunFuel pat.data s.data.length s.data

/- Python str.replace for a nonempty pattern: replaces every non-overlapping
occurrence, scanning left to right.  Fuel as in countRunFuel. -/
def replaceFuel (pat rep : List Char) : Nat → List Char → List Char
  | _, [] => []
  | 0, l => l
  | fuel + 1, c :: rest =>
    if 0 < pat.length ∧ (c :: rest).take pat.length = pat then
      rep ++ replaceFuel pat rep fuel ((c :: rest).drop pat.length)
    else
      c :: replaceFuel pat rep fuel rest

def pyReplace (s pat rep : String) : String :=
  ⟨replaceFuel pat.data rep.data s.data.length s.data⟩

/- The values following each "-i" flag of an ffmpeg argument vector, in
order: the external-input list with its stream indices 0, 1, ... . -/
def inputArgs : List String → List String
  | [] => []
  | [_] => []
  | a :: b :: rest => if a = "-i" then b :: inputArgs rest else inputArgs (b :: rest)

/- Second component of os.path.split on a POSIX path: the part after the
last slash. -/
def pyBasename (s : String) : String :=
  ⟨(s.data.reverse.takeWhile (fun c => !(c == '/'))).reverse⟩

/- Python str() of a field value: a stored string, or the literal None. -/
def fieldStr : Option String → String
  | some v => v
  | none => "None"

/- Python exceptions raised by the embedded code paths: KeyError from
fields_dict[k] on a missing key (the failure the spec taxonomy names
ConfigMissingKeyError), TypeError from os.path.abspath(None) or
os.path.exists(None) when the temp environment variable is unset (the
failure the spec taxonomy names TempDirUnavailableError), and
AttributeError from the os.mkdirs misspelling on line 113. -/
inductive PyErr
  | keyError (key : String)
  | typeError
  | attributeError

/- Mutable per-instance state of Dailies: the tmp_files registry. -/
structure DState where
  tmp_files : List String

/- Resource paths and the video_pressets mapping resolved in __init__ from
config.yml; video_pressets models dict.get on the preset-name key. -/
structure Config where
  ffmpeg : String
  bars : String
  color_bars : String
  logo : String
  logo_font_file : String
  font_file : String
  video_pressets : String → Option String

/- self.fields_data: the 13 fixed slate-field keys, each initially None. -/
structure FieldsData where
  company_name : Option String
  project_name : Option String
  lut : Option String
  shot_name : Option String
  file_name : Option String
  fps : Option String
  frame_range : Option String
  frame_total : Option String
  handles : Option String
  comp_res : Option String
  date : Option String
  user : Option String
  description : Option String

/- The keys of self.fields_data in insertion (iteration) order. -/
def fieldKeys : List String :=
  ["company_name", "project_name", "lut", "shot_name", "file_name", "fps",
   "frame_range", "frame_total", "handles", "comp_res", "date", "user",
   "description"]

/- The initial fields_data store built in Dailies.__init__. -/
def fdInit : FieldsData :=
  ⟨none, none, none, none, none, none, none, none, none, none, none, none, none⟩

def debug : Bool := true

/- Model of os.path.abspath on an absolute path: returned unchanged; no
verified claim depends on path normalization, only on the call raising
TypeError when handed None (modelled at the call sites). -/
def pyAbspath (p : String) : String := p

/- The Windows tilde fix of _get_tmp_dir lines 96-100: each path component
containing the short-name marker is replaced by the current user name. -/
def fixTilde (user t : String) : String :=
  joinSep "/" ((pySplit t '/').map (fun item => if strHas item ("~1") then user else item))

/- Dailies._get_tmp_dir.  platform models sys.platform, env models
os.environ.get, user models getpass.getuser().  An unset environment
variable makes os.path.abspath(None) raise TypeError. -/
def get_tmp_dir (platform user : String) (env : String → Option String) :
    Except PyErr (Option String) :=
  if platform = "darwin" ∨ strHas platform ("linux") = true then
    match env ("TMPDIR") with
    | none => Except.error PyErr.typeError
    | some t => Except.ok (some (pyAbspath t))
  else if platform = "win32" then
    match env ("TEMP") with
    | none => Except.error PyErr.typeError
    | some t => Except.ok (some (fixTilde user (pyReplace (pyAbspath t) ("\x5c") ("/"))))
  else
    Except.ok none

/- Dailies._get_tmp_file.  fsExists models os.path.exists; on the branch
where the directory is missing the source calls the nonexistent os.mkdirs,
which raises AttributeError.  On a platform where _get_tmp_dir returned
None, os.path.exists(None) raises TypeError. -/
def get_tmp_file (platform user : String) (env : String → Option String)
    (fsExists : String → Bool) (name : String) (st : DState) :
    Except PyErr (String × DState) :=
  match get_tmp_dir platform user env with
  | Except.error e => Except.error e
  | Except.ok none => Except.error PyErr.typeError
  | Except.ok (some tmp) =>
    if fsExists tmp then
      Except.ok (tmp ++ "/" ++ name, ⟨st.tmp_files ++ [tmp ++ "/" ++ name]⟩)
    else
      Except.error PyErr.attributeError

/- Dailies.fields_from_dict: for each key of self.fields_data in iteration
order, self.fields_data[k] = fields_dict[k]; a missing key raises
KeyError(k) at that point.  The prior store self_fields is never read. -/
def fields_from_dict (self_fields : FieldsData) (fields_dict : String → Option String) :
    Except PyErr FieldsData :=
  match fields_dict ("company_name") with
  | none => Except.error (PyErr.keyError ("company_name"))
  | some company_name =>
  match fields_dict ("project_name") with
  | none => Except.error (PyErr.keyError ("project_name"))
  | some project_name =>
  match fields_dict ("lut") with
  | none => Except.error (PyErr.keyError ("lut"))
  | some lut =>
  match fields_dict ("shot_name") with
  | none => Except.error (PyErr.keyError ("shot_name"))
  | some shot_name =>
  match fields_dict ("file_name") with
  | none => Except.error (PyErr.keyError ("file_name"))
  | some file_name =>
  match fields_dict ("fps") with
  | none => Except.error (PyErr.keyError ("fps"))
  | some fps =>
  match fields_dict ("frame_range") with
  | none => Except.error (PyErr.keyError ("frame_range"))
  | some frame_range =>
  match fields_dict ("frame_total") with
  | none => Except.error (PyErr.keyError ("frame_total"))
  | some frame_total =>
  match fields_dict ("handles") with
  | none => Except.error (PyErr.keyError ("handles"))
  | some handles =>
  match fields_dict ("comp_res") with
  | none => Except.error (PyErr.keyError ("comp_res"))
  | some comp_res =>
  match fields_dict ("date") with
  | none => Except.error (PyErr.keyError ("date"))
  | some date =>
  match fields_dict ("user") with
  | none => Except.error (PyErr.keyError ("user"))
  | some user =>
  match fields_dict ("description") with
  | none => Except.error (PyErr.keyError ("description"))
  | some description =>
    Except.ok ⟨some company_name, some project_name, some lut, some shot_name,
      some file_name, some fps, some frame_range, some frame_total, some handles,
      some comp_res, some date, some user, some description⟩

/- Global slate alignment properties from Dailies.__init__. -/
def left_text_margin : String := "(w)/2+150"

def top_text_margin : String := "380"

def font_size : Nat := 40

def line_spacing : Nat := 40

def font_color : String := "White"

def new_x : String := "1920"

def new_y : String := "1080"

/- Alignment template p for a slate field label (make_slate line 199). -/
def slate_p : String :=
  "x=" ++ left_text_margin ++ "-text_w:" ++ "y=" ++ top_text_margin ++ "+" ++ toString line_spacing

/- Alignment template pv for a slate field value (make_slate line 206). -/
def slate_pv : String :=
  "x=" ++ left_text_margin ++ "+10:" ++ "y=" ++ top_text_margin ++ "+" ++ toString line_spacing

/- Main body text style prefix (make_slate line 213). -/
def slate_text (c : Config) : String :=
  "drawtext=fontsize=" ++ toString font_size ++ ":fontcolor=" ++ font_color ++
    ":fontfile=\x27" ++ c.font_file ++ "\x27:text"

/- The eleven label/value rows of the slate filter template, lines 236-257:
row index (the hard-coded *0 .. *10 multiplier), caption, and the field
value spliced in by str.format. -/
def slateRows (fd : FieldsData) : List (Nat × String × String) :=
  [(0, "LUT", fieldStr fd.lut),
   (1, "Shot name", fieldStr fd.shot_name),
   (2, "File name", fieldStr fd.file_name),
   (3, "FPS", fieldStr fd.fps),
   (4, "Frame range", fieldStr fd.frame_range),
   (5, "Frame total", fieldStr fd.frame_total),
   (6, "Handles", fieldStr fd.handles),
   (7, "Comp resolution", fieldStr fd.comp_res),
   (8, "Date", fieldStr fd.date),
   (9, "User", fieldStr fd.user),
   (10, "Description", fieldStr fd.description)]

/- One rendered label/value pair of the template: the label drawtext at
position p times the row index, then the value drawtext at position pv
times the same row index, comma-separated exactly as in the source. -/
def slate_pair_fragment (c : Config) (r : Nat × String × String) : String :=
  slate_text c ++ "=\x27" ++ r.2.1 ++ "\x5c: \x27:" ++ slate_p ++ "*" ++ toString r.1 ++
    ", " ++ slate_text c ++ "=" ++ r.2.2 ++ ":" ++ slate_pv ++ "*" ++ toString r.1

/- The slate filter graph up to and including the two headline drawtext
nodes (company name and project name), make_slate lines 223-235. -/
def slate_header (c : Config) (fd : FieldsData) : String :=
  "[1:v] scale=" ++ new_x ++ ":" ++ new_y ++ ", setsar=1:1 [base]; " ++
  "[0:v] scale=" ++ new_x ++ ":" ++ new_y ++ " [thumbnail]; " ++
  "[thumbnail][3:v] overlay [thumbnail]; " ++
  "[thumbnail][3:v] overlay=x=(main_w-overlay_w):y=(main_h-overlay_h) [thumbnail]; " ++
  "[thumbnail] scale=(iw/4):(ih/4) [thumbnail]; " ++
  "[base][thumbnail] overlay=((main_w-overlay_w)/2)-500:(main_h-overlay_h)/2 [base]; " ++
  "[2:v] scale=-1:-1 [self.bars]; " ++
  "[base][self.bars] overlay=x=(main_w-overlay_w):y=(main_h-overlay_h-50) [base]; " ++
  "[4:v] scale=(iw*0.2):(ih*0.2) [self.logo]; " ++
  "[base][self.logo] overlay=x=500:y=100 [base]; " ++
  "[base] " ++
  "drawtext=fontsize=80:fontcolor=" ++ font_color ++ ":fontfile=" ++ c.logo_font_file ++
    ":text=" ++ fieldStr fd.company_name ++ ":x=690:y=130, " ++
  "drawtext=fontsize=50:fontcolor=" ++ font_color ++ ":fontfile=" ++ c.font_file ++
    ":text=" ++ fieldStr fd.project_name ++ ":x=(w)/2:y=250, "

/- The full complex filter string of make_slate (the template of lines
222-257 after str.format): header, then the eleven label/value pairs
comma-separated, with the template's trailing space. -/
def make_slate_filters (c : Config) (fd : FieldsData) : String :=
  slate_header c fd ++ joinSep ", " ((slateRows fd).map (slate_pair_fragment c)) ++ " "

structure SlateResult where
  cmd : List String
  out : String
  st : DState

/- Dailies.make_slate: allocate the temp output path, build the filter
graph, assemble the ffmpeg command (lines 283-287), and apply the debug
pops of lines 289-291 that strip the silence flags.  seqStart models
self._get_seq(src_seq).start(); the sp.call invocation itself is external,
so the result records the exact argument vector handed to it. -/
def make_slate_run (c : Config) (fd : FieldsData) (src_seq : String) (seqStart : Nat)
    (platform user : String) (env : String → Option String) (fsExists : String → Bool)
    (st : DState) : Except PyErr SlateResult :=
  match get_tmp_file platform user env fsExists ("tmp_slate.png") st with
  | Except.error e => Except.error e
  | Except.ok (output, st1) =>
    let filters := make_slate_filters c fd
    let cmd := [c.ffmpeg, "-v", "quiet", "-y", "-start_number", toString seqStart,
      "-i", src_seq, "-f", "lavfi", "-i", "color=c=black", "-i", c.bars,
      "-i", c.color_bars, "-i", c.logo, "-vframes", "1", "-filter_complex", filters,
      output]
    let cmd := if debug then (cmd.eraseIdx 1).eraseIdx 1 else cmd
    Except.ok ⟨cmd, output, st1⟩

/- The hard-coded default encoding settings of make_mov lines 324-327. -/
def defaultVideoSettings : List String :=
  ["-crf", "18", "-vcodec", "mjpeg", "-pix_fmt", "yuvj444p",
   "-qmin", "1", "-qmax", "1", "-r", "24"]

/- make_mov lines 316-327: look the preset name up in the video_pressets
mapping; a present value is split on spaces, a missing one falls back to
the defaults with no error. -/
def video_settings_of (c : Config) (preset : String) : List String :=
  match c.video_pressets preset with
  | some s => pySplit s ' '
  | none => defaultVideoSettings

/- The burn-in filter of make_mov lines 351-372, after str.format but
before the frame-number token substitution. -/
def burnin_filter (c : Config) (file_name : String) (seqStart seqEnd : Nat) : String :=
  "[base]; [base] " ++
  "drawtext=fontsize=30: " ++
  "fontcolor=" ++ font_color ++ ": " ++
  "fontfile=" ++ c.font_file ++ ": " ++
  "expansion=none: " ++
  "text=" ++ file_name ++ ": " ++
  "x=10:y=(h-(text_h+10)): " ++
  "enable=\x27between(n,1,99999)\x27, " ++
  "drawtext=fontsize=30: " ++
  "fontcolor=" ++ font_color ++ ": " ++
  "fontfile=" ++ c.font_file ++ ": " ++
  "start_number=1000: " ++
  "text=@frame_number \x5c[" ++ toString seqStart ++ "-" ++ toString seqEnd ++ "\x5c]: " ++
  "x=(w-(text_w+10)):y=(h-(text_h+10)): " ++
  "enable=\x27between(n,1,99999)\x27"

/- The movie filter graph of make_mov lines 333-377: the base scale and
aspect fix, the optional slate trim-and-concat, the optional burn-in, then
the @frame_number placeholder substitution done after all formatting. -/
def make_mov_filters (c : Config) (file_name : String) (seqStart seqEnd : Nat)
    (burnin slate : Bool) : String :=
  let filters := "[1:v] scale=" ++ new_x ++ ":" ++ new_y ++ ", setsar=1:1 [base]; " ++
    "[base] null "
  let filters := if slate then
      filters ++ "[base]; " ++
        "[0:v] trim=start_frame=0:end_frame=1 [slate]; " ++
        "[slate][base] concat "
    else filters
  let filters := if burnin then filters ++ burnin_filter c file_name seqStart seqEnd
    else filters
  pyReplace filters ("@frame_number") ("%\x7bn\x7d")

structure MovResult where
  movCmd : List String
  slateCmd : Option (List String)
  slateOut : Option String
  out : String
  st : DState

/- Dailies.make_mov: preset lookup, filter construction, then the command:
with slate requested, make_slate runs first and its output path is the
first input; otherwise a lavfi null source takes index 0 so the source
sequence stays at index 1 (lines 380-394), then the debug pops of lines
396-399 strip the silence flags. -/
def make_mov_run (c : Config) (fd : FieldsData) (src_seq out_mov preset : String)
    (burnin slate : Bool) (seqStart seqEnd : Nat) (platform user : String)
    (env : String → Option String) (fsExists : String → Bool) (st : DState) :
    Except PyErr MovResult :=
  let video_settings := video_settings_of c preset
  let file_name := pyBasename src_seq
  let filters := make_mov_filters c file_name seqStart seqEnd burnin slate
  if slate then
    match make_slate_run c fd src_seq seqStart platform user env fsExists st with
    | Except.error e => Except.error e
    | Except.ok sres =>
      let cmd := [c.ffmpeg, "-v", "quiet", "-y"] ++ ["-i", sres.out] ++
        ["-start_number", toString seqStart, "-i", src_seq] ++ video_settings ++
        ["-filter_complex", filters, out_mov]
      let cmd := if debug then (cmd.eraseIdx 1).eraseIdx 1 else cmd
      Except.ok ⟨cmd, some sres.cmd, some sres.out, out_mov, sres.st⟩
  else
    let cmd := [c.ffmpeg, "-v", "quiet", "-y"] ++
      ["-f", "lavfi", "-i", "nullsrc=s=256x256:d=5"] ++
      ["-start_number", toString seqStart, "-i", src_seq] ++ video_settings ++
      ["-filter_complex", filters, out_mov]
    let cmd := if debug then (cmd.eraseIdx 1).eraseIdx 1 else cmd
    Except.ok ⟨cmd, none, none, out_mov, st⟩

/- The caller sequence the spec prescribes for slate generation: populate
the FieldSet with fields_from_dict, then run make_slate.  The first
component is the list of external-engine invocations actually performed,
in order; a KeyError from fields_from_dict aborts before any command is
built or executed. -/
def run_fields_then_slate (c : Config) (f : FieldsData) (d : String → Option String)
    (src_seq : String) (seqStart : Nat) (platform user : String)
    (env : String → Option String) (fsExists : String → Bool) (st : DState) :
    List (List String) × Except PyErr String :=
  match fields_from_dict f d with
  | Except.error e => ([], Except.error e)
  | Except.ok fd =>
    match make_slate_run c fd src_seq seqStart platform user env fsExists st with
    | Except.error e => ([], Except.error e)
    | Except.ok r => ([r.cmd], Except.ok r.out)

/- Concrete instances used by witnesses and counterexamples. -/
def c0 : Config :=
  ⟨"ffmpeg", "bars.png", "cbars.png", "logo.png", "lfont.ttf", "font.ttf", fun _ => none⟩

def fd0 : FieldsData :=
  ⟨some "CO", some "PRJ", some "L", some "SH", some "FN", some "24", some "1-5",
   some "5", some "0", some "2k", some "D", some "U", some "DE"⟩

def fdColon : FieldsData := { fd0 with lut := some "a:b", description := some "o\x27k" }

def env0 : String → Option String := fun v => if v = "TMPDIR" then some ("/tmp") else none

def ex0 : String → Bool := fun _ => true

def dEx : String → Option String := fun k => if k ∈ fieldKeys then some k else none

def dEx2 : String → Option String :=
  fun k => if k = "zzz_extra" then some ("ignored") else if k ∈ fieldKeys then some k else none

def dMiss : String → Option String :=
  fun k => if k = "lut" then none else if k ∈ fieldKeys then some k else none

/- Helper lemmas about the string utilities. -/

theorem strData_append (a b : String) : (a ++ b).data = a.data ++ b.data := by
  cases a
  cases b
  rfl

theorem take_len_append {α : Type} (l₁ l₂ : List α) : (l₁ ++ l₂).take l₁.length = l₁ := by
  induction l₁ with
  | nil => rfl
  | cons a t ih => simp [ih]

theorem containsRun_cons_of {α : Type} [DecidableEq α] (pat l : List α) (c : α)
    (h : containsRun pat l = true) : containsRun pat (c :: l) = true := by
  simp [containsRun, h]

theorem containsRun_self_append {α : Type} [DecidableEq α] (pat b : List α) :
    containsRun pat (pat ++ b) = true := by
  cases pat with
  | nil =>
    cases b with
    | nil => rfl
    | cons x t => simp [containsRun]
  | cons p pr =>
    simp [containsRun, take_len_append]

theorem containsRun_iff {α : Type} [DecidableEq α] (pat l : List α) :
    containsRun pat l = true ↔ ∃ a b, l = a ++ pat ++ b := by
  induction l with
  | nil =>
    constructor
    · intro h
      simp [containsRun, List.isEmpty_iff] at h
      exact ⟨[], [], by simp [h]⟩
    · rintro ⟨a, b, hab⟩
      rcases List.append_eq_nil.mp (List.append_eq_nil.mp hab.symm).1 with ⟨ha, hp⟩
      simp [containsRun, hp]
  | cons c rest ih =>
    constructor
    · intro h
      have h' : List.take pat.length (c :: rest) = pat ∨ containsRun pat rest = true := by
        simpa [containsRun] using h
      rcases h' with h1 | h2
      · have h2 := List.take_append_drop pat.length (c :: rest)
        rw [h1] at h2
        exact ⟨[], (c :: rest).drop pat.length, by simp [h2]⟩
      · rcases ih.mp h2 with ⟨a, b, hab⟩
        exact ⟨c :: a, b, by simp [hab]⟩
    · rintro ⟨a, b, hab⟩
      cases a with
      | nil =>
        rw [show (c :: rest) = pat ++ b from by simpa using hab]
        exact containsRun_self_append pat b
      | cons a0 a' =>
        have h0 : c = a0 ∧ rest = a' ++ pat ++ b := by
          simpa using hab
        exact containsRun_cons_of pat rest c (ih.mpr ⟨a', b, h0.2⟩)

theorem strHas_of_split (s pat : String) (a b : List Char)
    (h : s.data = a ++ pat.data ++ b) : strHas s pat = true :=
  (containsRun_iff pat.data s.data).mpr ⟨a, b, h⟩

theorem joinSep_mem_split (sep : String) (l : List String) (x : String) (hx : x ∈ l) :
    ∃ a b, (joinSep sep l).data = a ++ x.data ++ b := by
  induction l with
  | nil => cases hx
  | cons h t ih =>
    cases t with
    | nil =>
      have hxh : x = h := by simpa using hx
      exact ⟨[], [], by simp [joinSep, hxh]⟩
    | cons h2 t2 =>
      rcases List.mem_cons.mp hx with hxh | hxt
      · refine ⟨[], (sep ++ joinSep sep (h2 :: t2)).data, ?_⟩
        simp [joinSep, strData_append, hxh]
      · rcases ih hxt with ⟨a, b, hab⟩
        refine ⟨h.data ++ sep.data ++ a, b, ?_⟩
        simp [joinSep, strData_append, hab]

theorem inputArgs_cons_ne (a : String) (l : List String) (h : ¬ a = "-i") :
    inputArgs (a :: l) = inputArgs l := by
  cases l <;> simp [inputArgs, h]

theorem inputArgs_cons_i (b : String) (l : List String) :
    inputArgs ("-i" :: b :: l) = b :: inputArgs l := by
  simp [inputArgs]

/- Exhaustive behaviour of fields_from_dict: either every required key is
present and the store is overwritten with exactly the mapping's values, or
it raises KeyError for a key of fieldKeys that the mapping lacks. -/
theorem fields_cases (f : FieldsData) (d : String → Option String) :
    (fields_from_dict f d = Except.ok
        { company_name := d ("company_name"), project_name := d ("project_name"),
          lut := d ("lut"), shot_name := d ("shot_name"), file_name := d ("file_name"),
          fps := d ("fps"), frame_range := d ("frame_range"),
          frame_total := d ("frame_total"), handles := d ("handles"),
          comp_res := d ("comp_res"), date := d ("date"), user := d ("user"),
          description := d ("description") } ∧
      ∀ k ∈ fieldKeys, (d k).isSome = true) ∨
    (∃ k', fields_from_dict f d = Except.error (PyErr.keyError k') ∧ d k' = none ∧
      k' ∈ fieldKeys) := by
  rcases hv1 : d ("company_name") with _ | v1
  · exact Or.inr ⟨"company_name", by simp [fields_from_dict, hv1], hv1, by decide⟩
  rcases hv2 : d ("project_name") with _ | v2
  · exact Or.inr ⟨"project_name", by simp [fields_from_dict, hv1, hv2], hv2, by decide⟩
  rcases hv3 : d ("lut") with _ | v3
  · exact Or.inr ⟨"lut", by simp [fields_from_dict, hv1, hv2, hv3], hv3, by decide⟩
  rcases hv4 : d ("shot_name") with _ | v4
  · exact Or.inr ⟨"shot_name", by simp [fields_from_dict, hv1, hv2, hv3, hv4], hv4,
      by decide⟩
  rcases hv5 : d ("file_name") with _ | v5
  · exact Or.inr ⟨"file_name", by simp [fields_from_dict, hv1, hv2, hv3, hv4, hv5], hv5,
      by decide⟩
  rcases hv6 : d ("fps") with _ | v6
  · exact Or.inr ⟨"fps", by simp [fields_from_dict, hv1, hv2, hv3, hv4, hv5, hv6], hv6,
      by decide⟩
  rcases hv7 : d ("frame_range") with _ | v7
  · exact Or.inr ⟨"frame_range",
      by simp [fields_from_dict, hv1, hv2, hv3, hv4, hv5, hv6, hv7], hv7, by decide⟩
  rcases hv8 : d ("frame_total") with _ | v8
  · exact Or.inr ⟨"frame_total",
      by simp [fields_from_dict, hv1, hv2, hv3, hv4, hv5, hv6, hv7, hv8], hv8, by decide⟩
  rcases hv9 : d ("handles") with _ | v9
  · exact Or.inr ⟨"handles",
      by simp [fields_from_dict, hv1, hv2, hv3, hv4, hv5, hv6, hv7, hv8, hv9], hv9,
      by decide⟩
  rcases hv10 : d ("comp_res") with _ | v10
  · exact Or.inr ⟨"comp_res",
      by simp [fields_from_dict, hv1, hv2, hv3, hv4, hv5, hv6, hv7, hv8, hv9, hv10], hv10,
      by decide⟩
  rcases hv11 : d ("date") with _ | v11
  · exact Or.inr ⟨"date",
      by simp [fields_from_dict, hv1, hv2, hv3, hv4, hv5, hv6, hv7, hv8, hv9, hv10, hv11],
      hv11, by decide⟩
  rcases hv12 : d ("user") with _ | v12
  · exact Or.inr ⟨"user",
      by simp [fields_from_dict, hv1, hv2, hv3, hv4, hv5, hv6, hv7, hv8, hv9, hv10, hv11,
        hv12], hv12, by decide⟩
  rcases hv13 : d ("description") with _ | v13
  · exact Or.inr ⟨"description",
      by simp [fields_from_dict, hv1, hv2, hv3, hv4, hv5, hv6, hv7, hv8, hv9, hv10, hv11,
        hv12, hv13], hv13, by decide⟩
  refine Or.inl ⟨?_, ?_⟩
  · simp [fields_from_dict, hv1, hv2, hv3, hv4, hv5, hv6, hv7, hv8, hv9, hv10, hv11, hv12,
      hv13]
  · intro k hk
    simp only [fieldKeys, List.mem_cons, List.not_mem_nil, or_false] at hk
    rcases hk with rfl | rfl | rfl | rfl | rfl | rfl | rfl | rfl | rfl | rfl | rfl | rfl | rfl
    all_goals simp [hv1, hv2, hv3, hv4, hv5, hv6, hv7, hv8, hv9, hv10, hv11, hv12, hv13]

/-- Claim C3: for every FieldSet mapping missing at least one of the 13
required keys, populating the fields raises the missing-key error (Python
KeyError, the failure the spec taxonomy calls ConfigMissingKeyError), and
the fields-then-slate pipeline executes no external-engine command. -/
theorem c3_missing_field_key_fails (k0 : String) (f : FieldsData)
    (d : String → Option String) (c : Config) (src_seq : String) (seqStart : Nat)
    (platform user : String) (env : String → Option String) (fsExists : String → Bool)
    (st : DState) (hk : k0 ∈ fieldKeys) (hnone : d k0 = none) :
    fieldKeys.length = 13 ∧
    ∃ k', fields_from_dict f d = Except.error (PyErr.keyError k') ∧ d k' = none ∧
      run_fields_then_slate c f d src_seq seqStart platform user env fsExists st =
        ([], Except.error (PyErr.keyError k')) := by
  rcases fields_cases f d with ⟨_, hall⟩ | ⟨k', herr, hn, _⟩
  · have hs := hall k0 hk
    rw [hnone] at hs
    simp at hs
  · exact ⟨by decide, k', herr, hn, by simp [run_fields_then_slate, herr]⟩

/-- Witness for C3 at a mapping lacking the lut key. -/
theorem c3_witness :
    fieldKeys.length = 13 ∧
    ∃ k', fields_from_dict fdInit dMiss = Except.error (PyErr.keyError k') ∧
      dMiss k' = none ∧
      run_fields_then_slate c0 fdInit dMiss "shots/s.%04d.png" 5 "linux" "u" env0 ex0
          ⟨[]⟩ = ([], Except.error (PyErr.keyError k')) :=
  c3_missing_field_key_fails "lut" fdInit dMiss c0 "shots/s.%04d.png" 5 "linux" "u" env0
    ex0 ⟨[]⟩ (by decide) (by decide)

/-- Claim C10: when the mapping has all 13 required keys, fields_from_dict
overwrites each fixed key of the store with the mapping's value (the prior
store never matters), reads no other entries, and two mappings agreeing on
the 13 keys produce the same store and the same generated commands. -/
theorem c10_fields_overwrite_extras_ignored (f f' : FieldsData)
    (d d' : String → Option String) :
    ((∀ k ∈ fieldKeys, (d k).isSome = true) →
      fields_from_dict f d = Except.ok
        { company_name := d ("company_name"), project_name := d ("project_name"),
          lut := d ("lut"), shot_name := d ("shot_name"), file_name := d ("file_name"),
          fps := d ("fps"), frame_range := d ("frame_range"),
          frame_total := d ("frame_total"), handles := d ("handles"),
          comp_res := d ("comp_res"), date := d ("date"), user := d ("user"),
          description := d ("description") }) ∧
    ((∀ k ∈ fieldKeys, d k = d' k) →
      fields_from_dict f d = fields_from_dict f d' ∧
      ∀ (c : Config) (src_seq : String) (seqStart : Nat) (platform user : String)
        (env : String → Option String) (fsExists : String → Bool) (st : DState),
        run_fields_then_slate c f d src_seq seqStart platform user env fsExists st =
          run_fields_then_slate c f d' src_seq seqStart platform user env fsExists st) ∧
    fields_from_dict f d = fields_from_dict f' d := by
  refine ⟨?_, ?_, rfl⟩
  · intro hall
    rcases fields_cases f d with ⟨heq, _⟩ | ⟨k', _, hn, hmem⟩
    · exact heq
    · have hs := hall k' hmem
      rw [hn] at hs
      simp at hs
  · intro h
    have h1 := h ("company_name") (by decide)
    have h2 := h ("project_name") (by decide)
    have h3 := h ("lut") (by decide)
    have h4 := h ("shot_name") (by decide)
    have h5 := h ("file_name") (by decide)
    have h6 := h ("fps") (by decide)
    have h7 := h ("frame_range") (by decide)
    have h8 := h ("frame_total") (by decide)
    have h9 := h ("handles") (by decide)
    have h10 := h ("comp_res") (by decide)
    have h11 := h ("date") (by decide)
    have h12 := h ("user") (by decide)
    have h13 := h ("description") (by decide)
    have hfd : fields_from_dict f d = fields_from_dict f d' := by
      simp only [fields_from_dict, h1, h2, h3, h4, h5, h6, h7, h8, h9, h10, h11, h12, h13]
    exact ⟨hfd, fun c src_seq seqStart platform user env fsExists st => by
      simp only [run_fields_then_slate, hfd]⟩

/-- Witness for C10: a mapping with an extra key produces the same store
as one without it, and a complete mapping fills every field. -/
theorem c10_witness :
    fields_from_dict fdInit dEx = fields_from_dict fdInit dEx2 ∧
    fields_from_dict fdInit dEx = Except.ok
      { company_name := dEx ("company_name"), project_name := dEx ("project_name"),
        lut := dEx ("lut"), shot_name := dEx ("shot_name"),
        file_name := dEx ("file_name"), fps := dEx ("fps"),
        frame_range := dEx ("frame_range"), frame_total := dEx ("frame_total"),
        handles := dEx ("handles"), comp_res := dEx ("comp_res"), date := dEx ("date"),
        user := dEx ("user"), description := dEx ("description") } :=
  ⟨((c10_fields_overwrite_extras_ignored fdInit fdInit dEx dEx2).2.1 (by decide)).1,
   (c10_fields_overwrite_extras_ignored fdInit fdInit dEx dEx2).1 (by decide)⟩

/-- Claim C6: make_slate builds the same external-engine command and the
same output path regardless of the accumulated tmp_files state, so calling
it twice with an identical FieldSet and the same resolved sequence (the
second call starting from the state the first call left behind) hands the
engine byte-identical argument vectors. -/
theorem c6_make_slate_command_deterministic (c : Config) (fd : FieldsData)
    (src_seq : String) (seqStart : Nat) (platform user : String)
    (env : String → Option String) (fsExists : String → Bool) (st st' : DState) :
    (make_slate_run c fd src_seq seqStart platform user env fsExists st).map
        (fun r => (r.cmd, r.out)) =
    (make_slate_run c fd src_seq seqStart platform user env fsExists st').map
        (fun r => (r.cmd, r.out)) := by
  unfold make_slate_run get_tmp_file
  cases get_tmp_dir platform user env with
  | error e => rfl
  | ok tmpO =>
    cases tmpO with
    | none => rfl
    | some tmp =>
      cases hfe : fsExists tmp <;> simp [hfe, Except.map]

/-- Claim C7: with neither slate nor burn-in requested the movie filter
graph is exactly the initial scale-to-canvas and setsar step producing the
base label (followed by the null passthrough), so it still contains the
scale/fix-aspect stage. -/
theorem c7_mov_filters_base_always (c : Config) (file_name : String)
    (seqStart seqEnd : Nat) :
    make_mov_filters c file_name seqStart seqEnd false false =
      "[1:v] scale=1920:1080, setsar=1:1 [base]; [base] null " ∧
    strHas (make_mov_filters c file_name seqStart seqEnd false false)
      ("scale=1920:1080, setsar=1:1 [base]") = true := by
  exact ⟨rfl, rfl⟩

/-- Claim C8: when the platform's required temp-directory environment
variable is unset (TMPDIR on mac/linux, TEMP on win32), temp-path
allocation fails: os.path.abspath(None) raises TypeError (the failure the
spec taxonomy names TempDirUnavailableError), in _get_tmp_dir and hence in
_get_tmp_file. -/
theorem c8_tmp_env_unset_fails (platform user name : String)
    (env : String → Option String) (fsExists : String → Bool) (st : DState) :
    ((platform = "darwin" ∨ strHas platform ("linux") = true) → env ("TMPDIR") = none →
      get_tmp_dir platform user env = Except.error PyErr.typeError ∧
      get_tmp_file platform user env fsExists name st = Except.error PyErr.typeError) ∧
    (platform = "win32" → env ("TEMP") = none →
      get_tmp_dir platform user env = Except.error PyErr.typeError ∧
      get_tmp_file platform user env fsExists name st = Except.error PyErr.typeError) := by
  constructor
  · intro hp he
    have hd : get_tmp_dir platform user env = Except.error PyErr.typeError := by
      unfold get_tmp_dir
      rw [if_pos hp, he]
    exact ⟨hd, by simp [get_tmp_file, hd]⟩
  · intro hp he
    subst hp
    have hd : get_tmp_dir "win32" user env = Except.error PyErr.typeError := by
      unfold get_tmp_dir
      rw [if_neg (by decide), if_pos rfl, he]
    exact ⟨hd, by simp [get_tmp_file, hd]⟩

/-- Witness for C8 on linux with TMPDIR unset. -/
theorem c8_witness :
    get_tmp_dir "linux" "u" (fun _ => none) = Except.error PyErr.typeError ∧
    get_tmp_file "linux" "u" (fun _ => none) ex0 "tmp_slate.png" ⟨[]⟩ =
      Except.error PyErr.typeError :=
  (c8_tmp_env_unset_fails "linux" "u" "tmp_slate.png" (fun _ => none) ex0 ⟨[]⟩).1
    (Or.inr (by decide)) rfl

/-- Claim C9: a preset name absent from the video_pressets mapping raises
no error; make_mov silently uses the hard-coded default encoding settings,
which appear in the generated command. -/
theorem c9_unknown_preset_defaults (c : Config) (fd : FieldsData)
    (src_seq out_mov preset : String) (burnin : Bool) (seqStart seqEnd : Nat)
    (platform user : String) (env : String → Option String) (fsExists : String → Bool)
    (st : DState) (h : c.video_pressets preset = none) :
    video_settings_of c preset = defaultVideoSettings ∧
    ∃ r, make_mov_run c fd src_seq out_mov preset burnin false seqStart seqEnd platform
        user env fsExists st = Except.ok r ∧
      containsRun defaultVideoSettings r.movCmd = true := by
  have hv : video_settings_of c preset = defaultVideoSettings := by
    simp [video_settings_of, h]
  refine ⟨hv, ?_⟩
  simp only [make_mov_run, hv, debug, Bool.false_eq_true, if_false, if_true]
  refine ⟨_, rfl, ?_⟩
  refine (containsRun_iff _ _).mpr
    ⟨[c.ffmpeg, "-y", "-f", "lavfi", "-i", "nullsrc=s=256x256:d=5", "-start_number",
      toString seqStart, "-i", src_seq],
     ["-filter_complex",
      make_mov_filters c (pyBasename src_seq) seqStart seqEnd burnin false, out_mov], ?_⟩
  simp [List.eraseIdx, defaultVideoSettings]

/-- Witness for C9 at a misspelled preset name. -/
theorem c9_witness :
    video_settings_of c0 "bogus_preset" = defaultVideoSettings ∧
    ∃ r, make_mov_run c0 fd0 "shots/s.%04d.png" "out.mov" "bogus_preset" true false 3 4
        "linux" "u" env0 ex0 ⟨[]⟩ = Except.ok r ∧
      containsRun defaultVideoSettings r.movCmd = true :=
  c9_unknown_preset_defaults c0 fd0 "shots/s.%04d.png" "out.mov" "bogus_preset" true 3 4
    "linux" "u" env0 ex0 ⟨[]⟩ rfl

theorem ne_i_y : ¬ ("-y" : String) = "-i" := by decide

theorem ne_i_f : ¬ ("-f" : String) = "-i" := by decide

theorem ne_i_lavfi : ¬ ("lavfi" : String) = "-i" := by decide

theorem ne_i_start_number : ¬ ("-start_number" : String) = "-i" := by decide

/-- Claim C1: with slate=True and burnin=True, and for every encoding
preset, the generated movie command's external-input list has the slate
image (the path make_slate returned) as the first -i argument, stream
index 0, and the source sequence as the second, stream index 1. -/
theorem c1_mov_input_order_slate (c : Config) (fd : FieldsData)
    (src_seq out_mov preset : String) (seqStart seqEnd : Nat) (platform user : String)
    (env : String → Option String) (fsExists : String → Bool) (st : DState)
    (r : MovResult) (hf : ¬ c.ffmpeg = "-i") (hs : ¬ toString seqStart = "-i")
    (hok : make_mov_run c fd src_seq out_mov preset true true seqStart seqEnd platform
      user env fsExists st = Except.ok r) :
    ∃ spath, r.slateOut = some spath ∧
      (inputArgs r.movCmd)[0]? = some spath ∧
      (inputArgs r.movCmd)[1]? = some src_seq := by
  cases hms : make_slate_run c fd src_seq seqStart platform user env fsExists st with
  | error e =>
    simp [make_mov_run, hms] at hok
  | ok sres =>
    simp only [make_mov_run, hms, debug, if_true] at hok
    rw [Except.ok.injEq] at hok
    subst hok
    refine ⟨sres.out, rfl, ?_, ?_⟩ <;>
      simp [List.eraseIdx, inputArgs_cons_ne, inputArgs_cons_i, hf, hs, ne_i_y,
        ne_i_start_number]

/-- Witness for C1 at a concrete configuration and sequence. -/
theorem c1_witness :
    ∃ r, make_mov_run c0 fd0 "shots/s.%04d.png" "out.mov" "" true true 5 9 "linux" "u"
        env0 ex0 ⟨[]⟩ = Except.ok r ∧
      ∃ spath, r.slateOut = some spath ∧
        (inputArgs r.movCmd)[0]? = some spath ∧
        (inputArgs r.movCmd)[1]? = some "shots/s.%04d.png" := by
  refine ⟨_, rfl, ?_⟩
  exact c1_mov_input_order_slate c0 fd0 "shots/s.%04d.png" "out.mov" "" 5 9 "linux" "u"
    env0 ex0 ⟨[]⟩ _ (by decide) (by decide) rfl

/-- Claim C2: with slate=False (any burnin), the generated movie command's
stream index 0 is the lavfi-generated null source, never the real
sequence, and the source sequence stays at stream index 1. -/
theorem c2_mov_input_order_noslate (c : Config) (fd : FieldsData)
    (src_seq out_mov preset : String) (burnin : Bool) (seqStart seqEnd : Nat)
    (platform user : String) (env : String → Option String) (fsExists : String → Bool)
    (st : DState) (hf : ¬ c.ffmpeg = "-i") (hs : ¬ toString seqStart = "-i") :
    ∃ r, make_mov_run c fd src_seq out_mov preset burnin false seqStart seqEnd platform
        user env fsExists st = Except.ok r ∧
      (inputArgs r.movCmd)[0]? = some "nullsrc=s=256x256:d=5" ∧
      (inputArgs r.movCmd)[1]? = some src_seq ∧
      containsRun ["-f", "lavfi", "-i", "nullsrc=s=256x256:d=5"] r.movCmd = true := by
  simp only [make_mov_run, debug, Bool.false_eq_true, if_false, if_true]
  refine ⟨_, rfl, ?_, ?_, ?_⟩
  · simp [List.eraseIdx, inputArgs_cons_ne, inputArgs_cons_i, hf, hs, ne_i_y, ne_i_f,
      ne_i_lavfi, ne_i_start_number]
  · simp [List.eraseIdx, inputArgs_cons_ne, inputArgs_cons_i, hf, hs, ne_i_y, ne_i_f,
      ne_i_lavfi, ne_i_start_number]
  · refine (containsRun_iff _ _).mpr
      ⟨[c.ffmpeg, "-y"],
       ["-start_number", toString seqStart, "-i", src_seq] ++ video_settings_of c preset
         ++ ["-filter_complex",
           make_mov_filters c (pyBasename src_seq) seqStart seqEnd burnin false, out_mov],
       ?_⟩
    simp [List.eraseIdx]

/-- Witness for C2 at a concrete configuration and sequence. -/
theorem c2_witness :
    ∃ r, make_mov_run c0 fd0 "shots/s.%04d.png" "out.mov" "" true false 5 9 "linux" "u"
        env0 ex0 ⟨[]⟩ = Except.ok r ∧
      (inputArgs r.movCmd)[0]? = some "nullsrc=s=256x256:d=5" ∧
      (inputArgs r.movCmd)[1]? = some "shots/s.%04d.png" ∧
      containsRun ["-f", "lavfi", "-i", "nullsrc=s=256x256:d=5"] r.movCmd = true :=
  c2_mov_input_order_noslate c0 fd0 "shots/s.%04d.png" "out.mov" "" true 5 9 "linux" "u"
    env0 ex0 ⟨[]⟩ (by decide) (by decide)

/- Transitivity of substring containment. -/
theorem strHas_trans (s t pat : String) (h1 : strHas s t = true)
    (h2 : strHas t pat = true) : strHas s pat = true := by
  rcases (containsRun_iff t.data s.data).mp h1 with ⟨x, y, hxy⟩
  rcases (containsRun_iff pat.data t.data).mp h2 with ⟨a, b, hab⟩
  exact (containsRun_iff pat.data s.data).mpr
    ⟨x ++ a, b ++ y, by simp [hxy, hab, List.append_assoc]⟩

/- Every label/value pair of the slate rows appears verbatim inside the
generated slate filter graph. -/
theorem slate_filters_has_fragment (c : Config) (fd : FieldsData)
    (r : Nat × String × String) (hr : r ∈ slateRows fd) :
    strHas (make_slate_filters c fd) (slate_pair_fragment c r) = true := by
  have hmem : slate_pair_fragment c r ∈ (slateRows fd).map (slate_pair_fragment c) :=
    List.mem_map_of_mem _ hr
  rcases joinSep_mem_split ", " _ _ hmem with ⟨a, b, hab⟩
  apply strHas_of_split _ _ ((slate_header c fd).data ++ a) (b ++ (" " : String).data)
  simp [make_slate_filters, strData_append, hab, List.append_assoc]

/- Each pair fragment carries its vertical position: the shared top margin
plus the row index times the line spacing, rendered as the template text. -/
theorem slate_fragment_has_row_position (c : Config) (r : Nat × String × String) :
    strHas (slate_pair_fragment c r)
      ("y=" ++ top_text_margin ++ "+" ++ toString line_spacing ++ "*" ++ toString r.1)
      = true := by
  apply strHas_of_split _ _
    ((slate_text c ++ "=\x27" ++ r.2.1 ++ "\x5c: \x27:" ++ "x=" ++ left_text_margin ++
      "-text_w:").data)
    ((", " ++ slate_text c ++ "=" ++ r.2.2 ++ ":" ++ slate_pv ++ "*" ++ toString r.1).data)
  simp [slate_pair_fragment, slate_p, strData_append, List.append_assoc]

set_option maxRecDepth 4000 in
/-- Claim C4 evaluation: a field value carrying a filtergraph-reserved
colon or apostrophe is spliced raw into its value text-draw of the slate
graph; the generated graph contains the unescaped value running straight
into the position clause, and the value's text-draw carries no escaped
form of it. -/
theorem c4_unescaped_field_value :
    (0, "LUT", "a:b") ∈ slateRows fdColon ∧
    strHas (slate_pair_fragment c0 (0, "LUT", "a:b")) ("text=a:b:x=(w)/2+150+10") = true ∧
    strHas (slate_pair_fragment c0 (0, "LUT", "a:b")) ("a\x5c:b") = false ∧
    strHas (make_slate_filters c0 fdColon) ("text=a:b:x=(w)/2+150+10") = true ∧
    (10, "Description", "o\x27k") ∈ slateRows fdColon ∧
    strHas (slate_pair_fragment c0 (10, "Description", "o\x27k")) ("text=o\x27k:") = true ∧
    strHas (slate_pair_fragment c0 (10, "Description", "o\x27k")) ("o\x5c\x27k") = false ∧
    strHas (make_slate_filters c0 fdColon) ("text=o\x27k:") = true := by
  refine ⟨by decide, rfl, rfl, ?_, by decide, rfl, rfl, ?_⟩
  · exact strHas_trans _ _ _
      (slate_filters_has_fragment c0 fdColon (0, "LUT", "a:b") (by decide)) rfl
  · exact strHas_trans _ _ _
      (slate_filters_has_fragment c0 fdColon (10, "Description", "o\x27k") (by decide)) rfl

/-- Claim C5 counterexample: the FieldSet has 13 keys but the slate graph
renders only 11 label/value pairs (the graph is the headline-bearing
header plus exactly the eleven rows LUT through Description), so there is
not one pair per FieldSet key: company_name and project_name get headline
text-draws with no label/value pair. -/
theorem c5_counterexample :
    fieldKeys.length = 13 ∧
    (slateRows fd0).length = 11 ∧
    ¬ (slateRows fd0).length = fieldKeys.length ∧
    (slateRows fd0).map (fun r => r.2.1) =
      ["LUT", "Shot name", "File name", "FPS", "Frame range", "Frame total", "Handles",
       "Comp resolution", "Date", "User", "Description"] ∧
    make_slate_filters c0 fd0 =
      slate_header c0 fd0 ++
        joinSep ", " ((slateRows fd0).map (slate_pair_fragment c0)) ++ " " := by
  exact ⟨rfl, rfl, by decide, rfl, rfl⟩

/-- Claim C5 (amended): for every FieldSet the slate graph is the header
(with the two headline text-draws for company_name and project_name)
followed by exactly one label/value text-draw pair for each of the other
11 keys, in the FieldSet's fixed key order with hard-coded row indices 0
through 10; each pair appears verbatim in the graph and carries the
vertical position text built from the shared top margin plus the row
index times the line spacing. -/
theorem c5_slate_rows_amended (c : Config) (fd : FieldsData) :
    (slateRows fd).map (fun r => r.2.1) =
      ["LUT", "Shot name", "File name", "FPS", "Frame range", "Frame total", "Handles",
       "Comp resolution", "Date", "User", "Description"] ∧
    (slateRows fd).map (fun r => r.2.2) =
      [fieldStr fd.lut, fieldStr fd.shot_name, fieldStr fd.file_name, fieldStr fd.fps,
       fieldStr fd.frame_range, fieldStr fd.frame_total, fieldStr fd.handles,
       fieldStr fd.comp_res, fieldStr fd.date, fieldStr fd.user,
       fieldStr fd.description] ∧
    (slateRows fd).map (fun r => r.1) = [0, 1, 2, 3, 4, 5, 6, 7, 8, 9, 10] ∧
    make_slate_filters c fd =
      slate_header c fd ++
        joinSep ", " ((slateRows fd).map (slate_pair_fragment c)) ++ " " ∧
    ∀ r ∈ slateRows fd,
      strHas (make_slate_filters c fd) (slate_pair_fragment c r) = true ∧
      strHas (slate_pair_fragment c r)
        ("y=" ++ top_text_margin ++ "+" ++ toString line_spacing ++ "*" ++ toString r.1)
        = true := by
  refine ⟨rfl, rfl, rfl, rfl, ?_⟩
  intro r hr
  exact ⟨slate_filters_has_fragment c fd r hr, slate_fragment_has_row_position c r⟩

/-- Witness for the amended C5 at the first row of a concrete FieldSet. -/
theorem c5_amended_witness :
    strHas (make_slate_filters c0 fd0) (slate_pair_fragment c0 (0, "LUT", "L")) = true ∧
    strHas (slate_pair_fragment c0 (0, "LUT", "L"))
      ("y=" ++ top_text_margin ++ "+" ++ toString line_spacing ++ "*" ++ toString (0 : Nat))
      = true :=
  (c5_slate_rows_amended c0 fd0).2.2.2.2 (0, "LUT", "L") (by decide)
